import Mathlib

/-!
Verification of the Navine-Music dynamic-background component
(`src/lib/components/DynamicBackgroundWebGL.svelte`) and the page-load
handler (`src/routes/+page.server.ts`), via a shallow embedding of their
state and operations in Lean.
-/

namespace NavineMusic

/-! ## Constants (from the component's constants block) -/

def DISPLAY_CANVAS_SIZE : Nat := 512

def MASTER_PALETTE_SIZE : Nat := 40

def DISPLAY_GRID_WIDTH : Nat := 8

def DISPLAY_GRID_HEIGHT : Nat := 5

def STRETCHED_GRID_WIDTH : Nat := 32

def STRETCHED_GRID_HEIGHT : Nat := 18

def SONG_PALETTE_TRANSITION_SPEED : ℚ := 0.015

/-! ## Data model -/

/-- A color: a triple of 8-bit channel values, as produced by the palette
extractor (`type Color` from `$lib/utils/colorExtraction`). -/
structure Color where
  r : Nat
  g : Nat
  b : Nat
deriving Repr, DecidableEq

/-- A palette is an ordered sequence of colors. -/
abbrev Palette := List Color

/-- The three CSS custom properties written by `updateFromTrack` to the
document root. -/
structure CssVars where
  bloomAccent : String
  bloomGlow : String
  dynamicBgVibrant : String
deriving Repr, DecidableEq

/-- The mutable component state touched by the track → palette path:
`previousPalette`, `targetPalette`, `songPaletteTransitionProgress`, the
CSS style sink, and the console error log. -/
structure ComponentState where
  previousPalette : Palette
  targetPalette : Palette
  songPaletteTransitionProgress : ℚ
  cssVars : CssVars
  errorLog : List String
deriving Repr, DecidableEq

/-! ## Vibrant color selection

Modelled from the spec: `getMostVibrantColor` lives in
`$lib/utils/colorExtraction`, which is not part of this fragment.  The
spec describes it as a pure, synchronous function over a non-empty
palette selecting the most visually prominent color, the policy being
for example max saturation×value.  For 8-bit RGB, HSV saturation×value
is proportional to the spread max−min of the channels, which we use as
the vibrance score. -/

def vibrance (c : Color) : Nat :=
  max c.r (max c.g c.b) - min c.r (min c.g c.b)

/-- Modelled from the spec: the most vibrant color of a palette, i.e. the
first color of maximal vibrance (a left fold keeping the current best). -/
def getMostVibrantColor (palette : Palette) : Color :=
  match palette with
  | [] => ⟨0, 0, 0⟩
  | c :: rest => rest.foldl (fun best x => if vibrance best < vibrance x then x else best) c

/-! ## Cover-URL resolution (`updateFromTrack`, lines 117–119)

`losslessAPI.getCoverUrl` is an external collaborator (an image-fetching
endpoint turning a relative cover identifier and a size token into an
absolute URL); it is abstracted as a function parameter. -/

/-- JS `String.prototype.startsWith`: the first characters of `s` are
exactly those of `pat`. -/
def jsStartsWith (s pat : String) : Bool :=
  s.data.take pat.data.length == pat.data

def resolveFullCoverUrl (getCoverUrl : String → String → String) (coverUrl : String) : String :=
  if jsStartsWith coverUrl "http" then coverUrl else getCoverUrl coverUrl "640"

/-! ## `updateFromTrack` -/

def rgbString (c : Color) : String :=
  "rgb(" ++ toString c.r ++ ", " ++ toString c.g ++ ", " ++ toString c.b ++ ")"

def rgbaGlowString (c : Color) : String :=
  "rgba(" ++ toString c.r ++ ", " ++ toString c.g ++ ", " ++ toString c.b ++ ", 0.45)"

/-- The body of `updateFromTrack` after the cover URL has been resolved,
as a state transition on `ComponentState`.  The awaited
`extractPaletteFromImage` either resolves to a palette (`Except.ok`) or
rejects (`Except.error`); a rejection is caught by the surrounding
`try`/`catch`, which logs to the console and changes nothing else, so
the embedded function is total (nothing escapes the handler). -/
def updateFromTrack (s : ComponentState) (extraction : Except String Palette) : ComponentState :=
  match extraction with
  | .error e =>
      { s with errorLog := s.errorLog ++ ["Failed to update background from track: " ++ e] }
  | .ok palette =>
      let vibrant := getMostVibrantColor palette
      { previousPalette := if s.targetPalette.length ≠ 0 then s.targetPalette else palette
        targetPalette := palette
        songPaletteTransitionProgress := 0
        cssVars :=
          { bloomAccent := rgbString vibrant
            bloomGlow := rgbaGlowString vibrant
            dynamicBgVibrant := rgbString vibrant }
        errorLog := s.errorLog }

/-! ## Per-frame transition progress

Modelled from the spec: the per-frame body of `animate` is stubbed in
this fragment (it only reschedules itself).  The spec states that
transition progress increases by a fixed per-frame increment
(`SONG_PALETTE_TRANSITION_SPEED`) each tick until reaching 1.0, clamped
to [0,1]. -/

def animateProgressStep (p : ℚ) : ℚ :=
  if 1 ≤ p + SONG_PALETTE_TRANSITION_SPEED then 1 else p + SONG_PALETTE_TRANSITION_SPEED

/-- `iterateProgress n p` runs `n` animation frames starting from
progress `p`. -/
def iterateProgress : Nat → ℚ → ℚ
  | 0, p => p
  | n + 1, p => iterateProgress n (animateProgressStep p)

/-! ## Track cover-URL resolution (`onMount` subscription, lines 86–91) -/

/-- The optional album field of a track; its `cover` may be absent. -/
structure Album where
  cover : Option String
deriving Repr, DecidableEq

/-- The shape of `state.currentTrack` as used by the subscription: an
identity plus an optional direct thumbnail URL and an optional album.
`Option String` models JS presence; the empty string models a present
but falsy value. -/
structure Track where
  id : Int
  thumbnailUrl : Option String
  album : Option Album
deriving Repr, DecidableEq

/-- JS truthiness of an optional string: absent and `""` are falsy. -/
def strTruthy : Option String → Bool
  | none => false
  | some s => s ≠ ""

/-- Cover-URL resolution of the player subscription: prefer a present,
truthy `thumbnailUrl`; otherwise fall back to a present, truthy
`album?.cover`; otherwise the empty string (no extraction happens). -/
def resolveCoverUrl (track : Track) : String :=
  if strTruthy track.thumbnailUrl then
    track.thumbnailUrl.getD ""
  else if strTruthy (track.album.bind Album.cover) then
    (track.album.bind Album.cover).getD ""
  else ""

/-! ## `startAnimation` (lines 239–241)

`animationFrameId : number | null` starts as `null` and is only ever
assigned `requestAnimationFrame` handles.  The guard is
`if (!animationFrameId)`: JS truthiness of a number-or-null, under
which both `null` and `0` are falsy. -/

def numFalsy : Option Int → Bool
  | none => true
  | some n => n == 0

/-- `startAnimation` as a function of the current `animationFrameId` and
the handle `requestAnimationFrame` would return; yields the new
`animationFrameId` and whether a new animation loop was scheduled. -/
def startAnimation (animationFrameId : Option Int) (newHandle : Int) : Option Int × Bool :=
  if numFalsy animationFrameId then (some newHandle, true) else (animationFrameId, false)

/-! ## `initializeWebGL` (lines 161–180) -/

/-- What `initializeWebGL` did: which setup steps ran and whether the
animation loop was started.  There is no retry field and no error
output: the function just returns early on failure. -/
structure InitResult where
  canvasSized : Bool
  shadersCreated : Bool
  texturesCreated : Bool
  framebuffersCreated : Bool
  cellStatesInitialized : Bool
  animationStarted : Bool
deriving Repr, DecidableEq

/-- `initializeWebGL`, parameterized by whether the canvas element is
bound and whether `canvas.getContext('webgl', ...)` returns a context
(`some`) or `null` (`none`). -/
def initializeWebGL (canvasPresent : Bool) (glContext : Option Unit) : InitResult :=
  if !canvasPresent then
    ⟨false, false, false, false, false, false⟩
  else
    match glContext with
    | none => ⟨true, false, false, false, false, false⟩
    | some _ => ⟨true, true, true, true, true, true⟩

/-! ## `updatePaletteTexture` (lines 226–237)

The function allocates
`data = new Uint8Array(DISPLAY_GRID_WIDTH * DISPLAY_GRID_HEIGHT * 2 * 4)`
and performs one `data.set([r, g, b, 255], offset)` per palette entry:
offset `i * 4` for `previousPalette[i]` and
`(MASTER_PALETTE_SIZE + i) * 4` for `targetPalette[i]`.  A
`TypedArray.set` raises a `RangeError` iff `offset + source.length`
exceeds the target length. -/

def paletteTextureByteLength : Nat :=
  DISPLAY_GRID_WIDTH * DISPLAY_GRID_HEIGHT * 2 * 4

/-- The `(offset, length)` pairs of the `data.set` writes performed by
`updatePaletteTexture` for palettes of the given lengths (each write
stores the four bytes `[r, g, b, 255]`). -/
def updatePaletteTextureWrites (prevLen targetLen : Nat) : List (Nat × Nat) :=
  (List.range prevLen).map (fun i => (i * 4, 4)) ++
    (List.range targetLen).map (fun i => ((MASTER_PALETTE_SIZE + i) * 4, 4))

/-- All writes of `updatePaletteTexture` stay within the backing
`Uint8Array`. -/
def updatePaletteTextureInBounds (prevLen targetLen : Nat) : Bool :=
  (updatePaletteTextureWrites prevLen targetLen).all
    (fun w => w.1 + w.2 ≤ paletteTextureByteLength)

/-! ## Page-load handler (`src/routes/+page.server.ts`) -/

/-- The private environment as seen by the handler: the `TITLE` and
`SLOGAN` variables, each possibly undefined. -/
structure Env where
  TITLE : Option String
  SLOGAN : Option String
deriving Repr, DecidableEq

/-- The data returned by the handler: exactly two string fields. -/
structure PageData where
  title : String
  slogan : String
deriving Repr, DecidableEq

/-- The `load` handler: `env.TITLE ?? 'Navine Music'` and
`env.SLOGAN ?? 'The easiest way to stream CD-quality lossless FLACs.'`. -/
def load (env : Env) : PageData :=
  { title := env.TITLE.getD "Navine Music"
    slogan := env.SLOGAN.getD "The easiest way to stream CD-quality lossless FLACs." }

/-! ## Helper lemmas -/

/-- A best-so-far left fold over a list of colors returns one of the
candidates. -/
lemma foldl_best_mem (c : Color) (rest : List Color) :
    rest.foldl (fun best x => if vibrance best < vibrance x then x else best) c ∈ c :: rest := by
  induction rest generalizing c with
  | nil => simp
  | cons d ds ih =>
      simp only [List.foldl_cons]
      by_cases hv : vibrance c < vibrance d
      · rw [if_pos hv]
        exact List.mem_cons_of_mem _ (ih d)
      · rw [if_neg hv]
        rcases List.mem_cons.mp (ih c) with h | h
        · exact List.mem_cons.mpr (Or.inl h)
        · exact List.mem_cons_of_mem _ (List.mem_cons_of_mem _ h)

/-! ## Claim theorems -/

set_option maxRecDepth 8000 in
/-- C1: transition progress is set to 0 by every successful track
update; the per-frame step (modelled from the spec, the `animate` body
being stubbed in this fragment) is monotonically non-decreasing and
stays within 1 on [0,1]; and iterating it from 0 reaches exactly 1
(after 67 frames of +0.015). -/
theorem transitionProgress_spec :
    (∀ (s : ComponentState) (pal : Palette),
      (updateFromTrack s (.ok pal)).songPaletteTransitionProgress = 0) ∧
    (∀ p : ℚ, 0 ≤ p → p ≤ 1 →
      p ≤ animateProgressStep p ∧ animateProgressStep p ≤ 1) ∧
    iterateProgress 67 0 = 1 := by
  refine ⟨fun s pal => rfl, fun p h0 h1 => ?_, ?_⟩
  · unfold animateProgressStep SONG_PALETTE_TRANSITION_SPEED
    split
    · constructor <;> linarith
    · constructor <;> [linarith; linarith]
  · norm_num [iterateProgress, animateProgressStep, SONG_PALETTE_TRANSITION_SPEED]

/-- Witness for C1 at concrete inputs. -/
theorem transitionProgress_spec_witness :
    (updateFromTrack ⟨[], [], 1, ⟨"a", "b", "c"⟩, []⟩
        (.ok [⟨1, 2, 3⟩])).songPaletteTransitionProgress = 0 ∧
    ((1 : ℚ) / 2 ≤ animateProgressStep (1 / 2) ∧ animateProgressStep (1 / 2) ≤ 1) ∧
    iterateProgress 67 0 = 1 :=
  ⟨transitionProgress_spec.1 _ _,
   transitionProgress_spec.2.1 (1 / 2) (by norm_num) (by norm_num),
   transitionProgress_spec.2.2⟩

/-- C2 counterexample: `"x.jpg"` does not start with `"http"`, so it is
not passed to the extractor unchanged; it is routed through the cover
endpoint at size 640 (here a concrete model of `getCoverUrl` that
builds a path from the identifier and size token). -/
theorem coverUrl_xjpg_not_unchanged :
    resolveFullCoverUrl (fun c s => "/cover/" ++ c ++ "/" ++ s) "x.jpg" ≠ "x.jpg" ∧
    resolveFullCoverUrl (fun c s => "/cover/" ++ c ++ "/" ++ s) "x.jpg" = "/cover/x.jpg/640" := by
  constructor <;> decide

/-- C2 amended: a cover URL starting with `"http"` is passed to the
extractor unchanged; any other cover URL (such as `"x.jpg"` or
`"abc"`) is passed through `losslessAPI.getCoverUrl` at size token
`"640"`. -/
theorem resolveFullCoverUrl_spec (getCoverUrl : String → String → String) (url : String) :
    (jsStartsWith url "http" = true → resolveFullCoverUrl getCoverUrl url = url) ∧
    (jsStartsWith url "http" = false →
      resolveFullCoverUrl getCoverUrl url = getCoverUrl url "640") := by
  constructor <;> intro h <;> simp [resolveFullCoverUrl, h]

/-- Witness for C2's amended theorem at `"http://x.jpg"` and `"abc"`. -/
theorem resolveFullCoverUrl_spec_witness :
    resolveFullCoverUrl (fun c s => "/cover/" ++ c ++ "/" ++ s) "http://x.jpg" = "http://x.jpg" ∧
    resolveFullCoverUrl (fun c s => "/cover/" ++ c ++ "/" ++ s) "abc" = "/cover/abc/640" :=
  ⟨(resolveFullCoverUrl_spec (fun c s => "/cover/" ++ c ++ "/" ++ s) "http://x.jpg").1
      (by decide),
   ((resolveFullCoverUrl_spec (fun c s => "/cover/" ++ c ++ "/" ++ s) "abc").2
      (by decide)).trans (by decide)⟩

/-- C3: after two successive successful updates with palettes `pa` then
`pb`, `previousPalette` equals the `targetPalette` in force just before
the second update (namely `pa`) whenever that target was non-empty, and
equals the new palette `pb` when it was empty. -/
theorem previousPalette_after_second_update (s : ComponentState) (pa pb : Palette) :
    ((updateFromTrack s (.ok pa)).targetPalette ≠ [] →
      (updateFromTrack (updateFromTrack s (.ok pa)) (.ok pb)).previousPalette
        = (updateFromTrack s (.ok pa)).targetPalette) ∧
    ((updateFromTrack s (.ok pa)).targetPalette = [] →
      (updateFromTrack (updateFromTrack s (.ok pa)) (.ok pb)).previousPalette = pb) := by
  constructor <;> intro h <;>
    simp only [updateFromTrack] at h ⊢ <;>
    simp [List.length_eq_zero, h]

/-- Witness for C3 at concrete states and palettes (both branches). -/
theorem previousPalette_after_second_update_witness :
    ((updateFromTrack ⟨[], [], 1, ⟨"a", "b", "c"⟩, []⟩
        (.ok [⟨1, 2, 3⟩])).targetPalette ≠ [] ∧
      (updateFromTrack (updateFromTrack ⟨[], [], 1, ⟨"a", "b", "c"⟩, []⟩
          (.ok [⟨1, 2, 3⟩])) (.ok [⟨4, 5, 6⟩])).previousPalette
        = (updateFromTrack ⟨[], [], 1, ⟨"a", "b", "c"⟩, []⟩ (.ok [⟨1, 2, 3⟩])).targetPalette) ∧
    ((updateFromTrack ⟨[], [], 1, ⟨"a", "b", "c"⟩, []⟩ (.ok [])).targetPalette = [] ∧
      (updateFromTrack (updateFromTrack ⟨[], [], 1, ⟨"a", "b", "c"⟩, []⟩
          (.ok [])) (.ok [⟨4, 5, 6⟩])).previousPalette = [⟨4, 5, 6⟩]) :=
  ⟨⟨by decide,
    (previousPalette_after_second_update ⟨[], [], 1, ⟨"a", "b", "c"⟩, []⟩
        [⟨1, 2, 3⟩] [⟨4, 5, 6⟩]).1 (by decide)⟩,
   ⟨by decide,
    (previousPalette_after_second_update ⟨[], [], 1, ⟨"a", "b", "c"⟩, []⟩
        [] [⟨4, 5, 6⟩]).2 (by decide)⟩⟩

/-- C4: a rejected palette extraction leaves the palettes, the
transition progress and the three CSS variables unchanged, and appends
exactly one error-log entry (the `try`/`catch` swallows the rejection,
so nothing escapes the handler, which the totality of `updateFromTrack`
reflects). -/
theorem updateFromTrack_error_preserves_state (s : ComponentState) (e : String) :
    (updateFromTrack s (.error e)).previousPalette = s.previousPalette ∧
    (updateFromTrack s (.error e)).targetPalette = s.targetPalette ∧
    (updateFromTrack s (.error e)).songPaletteTransitionProgress
      = s.songPaletteTransitionProgress ∧
    (updateFromTrack s (.error e)).cssVars = s.cssVars ∧
    (updateFromTrack s (.error e)).errorLog
      = s.errorLog ++ ["Failed to update background from track: " ++ e] := by
  simp [updateFromTrack]

/-- C5: for a non-empty palette, `getMostVibrantColor` (modelled from
the spec as the color of maximal saturation×value) returns an element
of the palette. -/
theorem getMostVibrantColor_mem (p : Palette) (h : p ≠ []) :
    getMostVibrantColor p ∈ p := by
  match p, h with
  | c :: rest, _ => exact foldl_best_mem c rest

/-- Witness for C5 on a concrete palette. -/
theorem getMostVibrantColor_mem_witness :
    ([⟨10, 10, 10⟩, ⟨200, 0, 0⟩, ⟨50, 50, 60⟩] : Palette) ≠ [] ∧
    getMostVibrantColor [⟨10, 10, 10⟩, ⟨200, 0, 0⟩, ⟨50, 50, 60⟩]
      ∈ ([⟨10, 10, 10⟩, ⟨200, 0, 0⟩, ⟨50, 50, 60⟩] : Palette) :=
  ⟨by decide,
   getMostVibrantColor_mem [⟨10, 10, 10⟩, ⟨200, 0, 0⟩, ⟨50, 50, 60⟩] (by decide)⟩

/-- C6: a present, truthy `thumbnailUrl` is preferred; when
`thumbnailUrl` is absent or falsy and `album.cover` is present and
truthy, the cover URL resolves to the album cover. -/
theorem resolveCoverUrl_spec (t : Track) :
    (∀ u, t.thumbnailUrl = some u → u ≠ "" → resolveCoverUrl t = u) ∧
    (∀ a c, strTruthy t.thumbnailUrl = false → t.album = some a → a.cover = some c →
      c ≠ "" → resolveCoverUrl t = c) := by
  constructor
  · intro u hu hne
    simp [resolveCoverUrl, strTruthy, hu, hne]
  · intro a c hfalsy ha hc hne
    have hbind : t.album.bind Album.cover = some c := by
      rw [ha]
      simpa using hc
    simp only [resolveCoverUrl, hfalsy, hbind]
    simp [strTruthy, hne]

/-- Witness for C6: a track with only an album cover resolves to it,
and a track with a truthy thumbnail prefers the thumbnail. -/
theorem resolveCoverUrl_spec_witness :
    resolveCoverUrl ⟨1, none, some ⟨some "album.jpg"⟩⟩ = "album.jpg" ∧
    resolveCoverUrl ⟨2, some "thumb.jpg", some ⟨some "album.jpg"⟩⟩ = "thumb.jpg" :=
  ⟨(resolveCoverUrl_spec ⟨1, none, some ⟨some "album.jpg"⟩⟩).2
      ⟨some "album.jpg"⟩ "album.jpg" (by decide) rfl rfl (by decide),
   (resolveCoverUrl_spec ⟨2, some "thumb.jpg", some ⟨some "album.jpg"⟩⟩).1
      "thumb.jpg" rfl (by decide)⟩

/-- C7: when `getContext` returns `null`, `initializeWebGL` returns
early: no shaders, textures, framebuffers or cell states are created
and the animation loop is not started (and the result carries no error
or retry of any kind — the canvas is merely sized). -/
theorem initializeWebGL_no_context :
    (initializeWebGL true none).shadersCreated = false ∧
    (initializeWebGL true none).texturesCreated = false ∧
    (initializeWebGL true none).framebuffersCreated = false ∧
    (initializeWebGL true none).cellStatesInitialized = false ∧
    (initializeWebGL true none).animationStarted = false := by
  decide

/-- C8: every `data.set` of `updatePaletteTexture` is in bounds of the
320-byte buffer iff `previousPalette` has at most 80 entries and
`targetPalette` at most `MASTER_PALETTE_SIZE = 40`; in particular the
configured 8×5 = 40 grid palettes are safe. -/
theorem updatePaletteTexture_inBounds_iff :
    (∀ prevLen targetLen : Nat,
      updatePaletteTextureInBounds prevLen targetLen = true ↔
        prevLen ≤ 80 ∧ targetLen ≤ MASTER_PALETTE_SIZE) ∧
    updatePaletteTextureInBounds (DISPLAY_GRID_WIDTH * DISPLAY_GRID_HEIGHT)
      (DISPLAY_GRID_WIDTH * DISPLAY_GRID_HEIGHT) = true := by
  constructor
  · intro prevLen targetLen
    simp only [updatePaletteTextureInBounds, updatePaletteTextureWrites, List.all_append,
      Bool.and_eq_true, List.all_eq_true, List.mem_map, List.mem_range,
      paletteTextureByteLength, DISPLAY_GRID_WIDTH, DISPLAY_GRID_HEIGHT,
      MASTER_PALETTE_SIZE, decide_eq_true_eq]
    constructor
    · rintro ⟨h1, h2⟩
      constructor
      · by_contra hc
        push_neg at hc
        have := h1 (80 * 4, 4) ⟨80, by omega, rfl⟩
        omega
      · by_contra hc
        push_neg at hc
        have := h2 ((40 + 40) * 4, 4) ⟨40, by omega, rfl⟩
        omega
    · rintro ⟨h1, h2⟩
      constructor
      · rintro ⟨o, l⟩ ⟨i, hi, heq⟩
        obtain ⟨ho, hl⟩ := Prod.mk.injEq .. ▸ heq
        omega
      · rintro ⟨o, l⟩ ⟨i, hi, heq⟩
        obtain ⟨ho, hl⟩ := Prod.mk.injEq .. ▸ heq
        omega
  · decide

/-- C9 counterexample: `animationFrameId = 0` is non-null, yet
`startAnimation` overwrites it and schedules another loop, because the
guard `if (!animationFrameId)` tests JS truthiness, under which 0 is
falsy. -/
theorem startAnimation_zero_schedules :
    (some (0 : Int) ≠ none) ∧ startAnimation (some 0) 7 = (some 7, true) := by
  constructor <;> decide

/-- C9 amended: when `animationFrameId` holds a non-null, nonzero
handle (as `requestAnimationFrame` handles are in practice),
`startAnimation` leaves the state unchanged and schedules nothing, so
at most one animation loop is active. -/
theorem startAnimation_idempotent (n newHandle : Int) (h : n ≠ 0) :
    startAnimation (some n) newHandle = (some n, false) := by
  simp [startAnimation, numFalsy, h]

/-- Witness for C9's amended theorem at a concrete nonzero handle. -/
theorem startAnimation_idempotent_witness :
    startAnimation (some 5) 7 = (some 5, false) :=
  startAnimation_idempotent 5 7 (by decide)

/-- C10: the page-load handler returns exactly the two string fields,
`title` being the `TITLE` environment variable when defined and
`'Navine Music'` otherwise, `slogan` being the `SLOGAN` variable when
defined and its hardcoded default otherwise; `load` is a pure function
of the environment (no other state appears in its type). -/
theorem load_spec :
    (∀ (t : String) (os : Option String), (load ⟨some t, os⟩).title = t) ∧
    (∀ os : Option String, (load ⟨none, os⟩).title = "Navine Music") ∧
    (∀ (ot : Option String) (s : String), (load ⟨ot, some s⟩).slogan = s) ∧
    (∀ ot : Option String,
      (load ⟨ot, none⟩).slogan = "The easiest way to stream CD-quality lossless FLACs.") :=
  ⟨fun _ _ => rfl, fun _ => rfl, fun _ _ => rfl, fun _ => rfl⟩

end NavineMusic
